import Mathlib

/-!
# Verification of DualOStream (DualOStream.h)

Shallow embedding of the tee stream buffer `DualOStream::CTeeBuf` and the
facade `DualOStream::DStream`.  The buffer fans every character out to two
destination sinks, optionally decorating line starts with a timestamp and a
pending forced message.

Modelling conventions:
* The mutable fields of `CTeeBuf` form the state record `TeeState`.
* A destination sink is modelled by the list of characters sent to it during
  a call (`out1`, `out2` of `OverflowResult`); the integer results of the two
  final `sputc` calls are passed in as parameters `r1`, `r2` since they come
  from the environment.
* Wall-clock time and the elapsed-seconds string produced by
  `std::to_string(double)` are supplied by an oracle `TimeObs`, one
  observation per `overflow` call (at most one timestamp is computed per
  call).
-/

namespace DualOStream

/-- The `EOF` sentinel from `<cstdio>`. -/
def EOF : Int := -1

/-- C++ logical not on `int`: `!x` is `1` when `x == 0` and `0` otherwise.
`overflow` returns `!EOF` for the end-of-stream marker. -/
def cNot (x : Int) : Int := if x = 0 then 1 else 0

/-- `char_traits<char>::to_char_type` applied to an `int`: the byte the
stream actually emits. -/
def to_char_type (c : Int) : Char := Char.ofNat (c % 256).toNat

/-- Broken-down calendar time, the fields of `struct tm` used by
`CTeeBuf::GetTimeStamp` (as returned by `localtime`). -/
structure Tm where
  tm_year : Int -- years since 1900
  tm_mon  : Int -- months since January, 0..11
  tm_mday : Int -- day of the month, 1..31
  tm_hour : Int -- 0..23
  tm_min  : Int -- 0..59
  tm_sec  : Int -- 0..60
deriving Repr, DecidableEq

/-- One time observation: the broken-down wall-clock time and the string
`std::to_string` produces for the elapsed-seconds `double`
(`time_span.count()`). -/
structure TimeObs where
  tm : Tm
  elapsed : String
deriving Repr, DecidableEq

/-- The mutable state of a `CTeeBuf` (all fields that persist across calls).
`start`/`now` are time points consumed only through the oracle, so only the
`clockStarted` latch is kept. -/
structure TeeState where
  timeStampEnabledStream1 : Bool
  timeStampEnabledStream2 : Bool
  timeStamp : String
  forceMessage : Bool
  forcedMessage : String
  clockStarted : Bool
  newline : Bool
deriving Repr, DecidableEq

/-- `CTeeBuf::GetTimeStamp`, string construction only (the clock reads are
the oracle `t`; the `clockStarted` latch is updated by the caller).
`std::to_string` on the `int` fields is `Int.repr`. -/
def GetTimeStamp (t : TimeObs) : String :=
  "[" ++ Int.repr (t.tm.tm_year + 1900)
      ++ "-" ++ Int.repr (t.tm.tm_mon + 1)
      ++ "-" ++ Int.repr t.tm.tm_mday
      ++ "|" ++ Int.repr t.tm.tm_hour
      ++ ":" ++ Int.repr t.tm.tm_min
      ++ ":" ++ Int.repr t.tm.tm_sec
      ++ "|" ++ t.elapsed
      ++ "] "

/-- `str << std::setw(32) << std::left << s`: pad with spaces on the right to
32 columns; a string of 32 or more characters is written unchanged. -/
def setwLeft32 (s : String) : String :=
  s ++ String.mk (List.replicate (32 - s.length) ' ')

/-- Result of one `CTeeBuf::overflow(c)` call: the new buffer state, the
characters sent to each destination sink during the call (in order), and the
returned `int`. -/
structure OverflowResult where
  st : TeeState
  out1 : List Char
  out2 : List Char
  ret : Int
deriving Repr, DecidableEq

/-- `CTeeBuf::overflow(int c)`.  `t` is the time observation used if the
call computes a timestamp; `r1`, `r2` are the results of the two final
`sputc` calls on the destination stream buffers. -/
def overflow (st : TeeState) (t : TimeObs) (c : Int) (r1 r2 : Int) :
    OverflowResult :=
  if c = EOF then
    -- `if (c == EOF) { return !EOF; }`
    { st := st, out1 := [], out2 := [], ret := cNot EOF }
  else
    -- `if (forceMessage == true) { newline = true; str1 << "\n"; str2 << "\n"; }`
    let newlineA := if st.forceMessage then true else st.newline
    let out1A : List Char := if st.forceMessage then ['\n'] else []
    let out2A : List Char := if st.forceMessage then ['\n'] else []
    -- `if (newline == true) { if (ts1 || ts2) { timeStamp = GetTimeStamp(); ... } ... }`
    let computeTS := newlineA &&
      (st.timeStampEnabledStream1 || st.timeStampEnabledStream2)
    let timeStampB := if computeTS then GetTimeStamp t else st.timeStamp
    let clockStartedB := if computeTS then true else st.clockStarted
    let out1B := out1A ++
      (if computeTS && st.timeStampEnabledStream1 then
        (setwLeft32 timeStampB).data else [])
    let out2B := out2A ++
      (if computeTS && st.timeStampEnabledStream2 then
        (setwLeft32 timeStampB).data else [])
    -- `if (forceMessage == true) { str1 << forcedMessage; str2 << forcedMessage;
    --    forceMessage = false; c = '\n'; }`
    let doForce := newlineA && st.forceMessage
    let out1C := out1B ++ (if doForce then st.forcedMessage.data else [])
    let out2C := out2B ++ (if doForce then st.forcedMessage.data else [])
    let forceMessageC := if doForce then false else st.forceMessage
    let cC : Int := if doForce then 10 else c
    -- `if (traits_type::to_char_type(c) == '\n') newline = true; else newline = false;`
    let newlineD := decide (to_char_type cC = '\n')
    -- `int const r1 = sb1->sputc(c); int const r2 = sb2->sputc(c);
    --  return r1 == EOF || r2 == EOF ? EOF : c;`
    { st := { st with
        timeStamp := timeStampB
        clockStarted := clockStartedB
        forceMessage := forceMessageC
        newline := newlineD }
      out1 := out1C ++ [to_char_type cC]
      out2 := out2C ++ [to_char_type cC]
      ret := if r1 = EOF ∨ r2 = EOF then EOF else cC }

/-- `CTeeBuf::sync()`: `r1`, `r2` are the results of `pubsync` on the two
destinations. -/
def sync (r1 r2 : Int) : Int :=
  if r1 = 0 ∧ r2 = 0 then 0 else -1

/-- The `CTeeBuf` state right after the four-argument `DStream` constructor
(the field initialisers, with the two timestamp flags set as requested). -/
def initState (ts1 ts2 : Bool) : TeeState :=
  { timeStampEnabledStream1 := ts1
    timeStampEnabledStream2 := ts2
    timeStamp := ""
    forceMessage := false
    forcedMessage := ""
    clockStarted := false
    newline := true }

/-- `DStream::GetLastTimeStamp()`. -/
def GetLastTimeStamp (st : TeeState) : String := st.timeStamp

/-- `DStream::ForceMessage(message)` up to and including the `sputc('\n')`
call: append `"\n"` to the message, store it, arm the force flag, and push a
newline through `overflow` (the tee buffer is unbuffered, so `sputc('\n')`
invokes `overflow('\n') = overflow 10`). -/
def ForceMessage (st : TeeState) (t : TimeObs) (message : String)
    (r1 r2 : Int) : OverflowResult :=
  let st1 := { st with forcedMessage := message ++ "\n", forceMessage := true }
  overflow st1 t 10 r1 r2

/-- The busy-wait loop at the end of `DStream::ForceMessage`:
`while (tbuf.forceMessage == true) { }`.  The body is empty, so the flag
never changes inside the loop; in a single-threaded execution the loop
terminates — after zero iterations — exactly when the flag is already false
on entry, and spins forever otherwise.  `some n` means the loop terminated
after `n` iterations, `none` that it never returns. -/
def busyWait (st : TeeState) : Option Nat :=
  if st.forceMessage then none else some 0

/-- Fan a list of characters (with their time observations) through
`overflow`, collecting the characters sent to each destination.  The `sputc`
results do not influence the state or the outputs (see the C5 theorem), so
they are fixed to `0` here. -/
def writeList (st : TeeState) : List (Int × TimeObs) → TeeState × List Char × List Char
  | [] => (st, [], [])
  | (c, t) :: rest =>
    let r := overflow st t c 0 0
    let rest' := writeList r.st rest
    (rest'.1, r.out1 ++ rest'.2.1, r.out2 ++ rest'.2.2)

/-- A string as the list of `overflow` arguments produced by writing it
through the stream, all calls sharing one time observation. -/
def strWrites (s : String) (t : TimeObs) : List (Int × TimeObs) :=
  s.data.map (fun ch => ((ch.toNat : Int), t))

/-- A fixed sample time observation for concrete runs. -/
def t0 : TimeObs :=
  { tm := { tm_year := 119, tm_mon := 5, tm_mday := 7, tm_hour := 9,
            tm_min := 30, tm_sec := 5 }
    elapsed := "0.000000" }

/-! ## Helper lemmas -/

/-- `overflow` never changes the two timestamp-enable flags or the stored
forced-message text. -/
lemma overflow_preserves_flags (st : TeeState) (t : TimeObs) (c r1 r2 : Int) :
    (overflow st t c r1 r2).st.timeStampEnabledStream1 =
      st.timeStampEnabledStream1 ∧
    (overflow st t c r1 r2).st.timeStampEnabledStream2 =
      st.timeStampEnabledStream2 := by
  unfold overflow
  split <;> simp

/-- When both destinations have the same timestamp setting, a single
`overflow` call sends the same characters to both sinks. -/
lemma overflow_out_eq (st : TeeState) (t : TimeObs) (c r1 r2 : Int)
    (h : st.timeStampEnabledStream1 = st.timeStampEnabledStream2) :
    (overflow st t c r1 r2).out1 = (overflow st t c r1 r2).out2 := by
  unfold overflow
  split
  · rfl
  · simp [h]

/-- In `overflow`, the forced branch fires exactly when the force flag is
set on entry (the force flag implies the line-start flag). -/
lemma overflow_doForce (st : TeeState) :
    ((if st.forceMessage then true else st.newline) && st.forceMessage) =
      st.forceMessage := by
  cases st.forceMessage <;> simp

/-- The last element of a list that syntactically ends in a singleton. -/
lemma getLast_cons_append_append (a : Char) (A B : List Char) (x : Char) :
    (a :: (A ++ (B ++ [x]))).getLast? = some x := by
  rw [show a :: (A ++ (B ++ [x])) = (a :: (A ++ B)) ++ [x] by simp]
  exact List.getLast?_concat _

/-- The `overflow` call triggered by `ForceMessage` always leaves the force
flag cleared, whatever the destination write results. -/
lemma forceMessage_cleared (st : TeeState) (t : TimeObs) (msg : String)
    (r1 r2 : Int) :
    (ForceMessage st t msg r1 r2).st.forceMessage = false := by
  unfold ForceMessage overflow
  rw [if_neg (by decide : (10 : Int) ≠ EOF)]
  simp

/-! ## Claim theorems -/

/-- C1: with equal timestamp settings on both destinations, any sequence of
characters written through the tee is delivered identically (same characters,
same order) to both destinations; in particular, with timestamping disabled
on both, writing `"hello\n"` delivers exactly `"hello\n"` to each. -/
theorem tee_destinations_agree (st : TeeState) (cs : List (Int × TimeObs))
    (h : st.timeStampEnabledStream1 = st.timeStampEnabledStream2) :
    (writeList st cs).2.1 = (writeList st cs).2.2 ∧
    (writeList (initState false false) (strWrites "hello\n" t0)).2.1 =
      "hello\n".data ∧
    (writeList (initState false false) (strWrites "hello\n" t0)).2.2 =
      "hello\n".data := by
  refine ⟨?_, by decide, by decide⟩
  induction cs generalizing st with
  | nil => rfl
  | cons p rest ih =>
    obtain ⟨c, t⟩ := p
    simp only [writeList]
    have hpres := overflow_preserves_flags st t c 0 0
    rw [overflow_out_eq st t c 0 0 h,
      ih (overflow st t c 0 0).st (by rw [hpres.1, hpres.2, h])]

/-- Witness for C1 at a concrete input (both timestamps enabled, one
character). -/
theorem tee_destinations_agree_witness :
    (writeList (initState true true) [(104, t0)]).2.1 =
      (writeList (initState true true) [(104, t0)]).2.2 ∧
    (writeList (initState false false) (strWrites "hello\n" t0)).2.1 =
      "hello\n".data ∧
    (writeList (initState false false) (strWrites "hello\n" t0)).2.2 =
      "hello\n".data :=
  tee_destinations_agree (initState true true) [(104, t0)] rfl

/-- C5: for a non-EOF character, `overflow` returns `EOF` exactly when at
least one of the two destination `sputc` calls returns `EOF`; the state and
the characters sent to either destination do not depend on the `sputc`
results (both writes are always attempted, a failure on one side does not
suppress the other), and each destination receives the emitted character
last. -/
theorem overflow_failure_propagation (st : TeeState) (t : TimeObs)
    (c r1 r2 r1' r2' : Int) (hc : c ≠ EOF) :
    ((overflow st t c r1 r2).ret = EOF ↔ (r1 = EOF ∨ r2 = EOF)) ∧
    (overflow st t c r1 r2).st = (overflow st t c r1' r2').st ∧
    (overflow st t c r1 r2).out1 = (overflow st t c r1' r2').out1 ∧
    (overflow st t c r1 r2).out2 = (overflow st t c r1' r2').out2 ∧
    (overflow st t c r1 r2).out1.getLast? =
      some (to_char_type (if st.forceMessage then 10 else c)) ∧
    (overflow st t c r1 r2).out2.getLast? =
      some (to_char_type (if st.forceMessage then 10 else c)) := by
  unfold overflow
  rw [if_neg hc, if_neg hc]
  refine ⟨?_, rfl, rfl, rfl, ?_, ?_⟩
  · simp only [overflow_doForce]
    constructor
    · intro hret
      by_contra hnot
      push_neg at hnot
      rw [if_neg (by tauto)] at hret
      cases hF : st.forceMessage <;> rw [hF] at hret <;> simp at hret
      · exact hc hret
      · exact absurd hret (by decide)
    · intro hor
      rw [if_pos hor]
  · cases hF : st.forceMessage <;>
      simp [hF, getLast_cons_append_append, List.getLast?_concat]
  · cases hF : st.forceMessage <;>
      simp [hF, getLast_cons_append_append, List.getLast?_concat]

/-- Witness for C5 at a concrete input. -/
theorem overflow_failure_propagation_witness :
    ((overflow (initState false false) t0 104 EOF 0).ret = EOF ↔
      ((EOF : Int) = EOF ∨ (0 : Int) = EOF)) ∧
    (overflow (initState false false) t0 104 EOF 0).st =
      (overflow (initState false false) t0 104 7 7).st ∧
    (overflow (initState false false) t0 104 EOF 0).out1 =
      (overflow (initState false false) t0 104 7 7).out1 ∧
    (overflow (initState false false) t0 104 EOF 0).out2 =
      (overflow (initState false false) t0 104 7 7).out2 ∧
    (overflow (initState false false) t0 104 EOF 0).out1.getLast? =
      some (to_char_type
        (if (initState false false).forceMessage then 10 else 104)) ∧
    (overflow (initState false false) t0 104 EOF 0).out2.getLast? =
      some (to_char_type
        (if (initState false false).forceMessage then 10 else 104)) :=
  overflow_failure_propagation (initState false false) t0 104 EOF 0 7 7
    (by decide)

/-- C8: `overflow(EOF)` returns `0` (which is not `EOF`, i.e. success),
sends nothing to either destination, and leaves the whole tee state
unchanged. -/
theorem overflow_EOF_noop (st : TeeState) (t : TimeObs) (r1 r2 : Int) :
    overflow st t EOF r1 r2 = { st := st, out1 := [], out2 := [], ret := 0 } ∧
    (0 : Int) ≠ EOF :=
  ⟨rfl, by decide⟩

/-- C9: `sync` succeeds (returns `0`) exactly when both destinations flush
successfully, and returns `-1` when either flush fails. -/
theorem sync_spec (r1 r2 : Int) :
    (sync r1 r2 = 0 ↔ (r1 = 0 ∧ r2 = 0)) ∧
    ((r1 ≠ 0 ∨ r2 ≠ 0) → sync r1 r2 = -1) := by
  unfold sync
  constructor
  · split_ifs with h
    · simp [h]
    · simp [h]
  · intro hor
    rw [if_neg (by tauto)]

/-- Witness for C9 at a concrete input. -/
theorem sync_spec_witness :
    ((sync 0 (-1) = 0 ↔ ((0 : Int) = 0 ∧ (-1 : Int) = 0)) ∧
      (((0 : Int) ≠ 0 ∨ (-1 : Int) ≠ 0) → sync 0 (-1) = -1)) ∧
    sync 0 (-1) = -1 :=
  ⟨sync_spec 0 (-1), (sync_spec 0 (-1)).2 (Or.inr (by decide))⟩

/-- C10: `ForceMessage` always clears the force flag inside the triggered
`overflow` call — whatever the destination write results are — so the
busy-wait loop finds the flag already false and performs zero iterations;
`ForceMessage` terminates. -/
theorem forceMessage_terminates (st : TeeState) (t : TimeObs) (msg : String)
    (r1 r2 : Int) :
    (ForceMessage st t msg r1 r2).st.forceMessage = false ∧
    busyWait (ForceMessage st t msg r1 r2).st = some 0 := by
  have h := forceMessage_cleared st t msg r1 r2
  exact ⟨h, by unfold busyWait; rw [h]; simp⟩

/-- C2 counterexample: with timestamping disabled on both destinations,
`ForceMessage("alert")` delivers `"\nalert\n\n"` to each destination — the
newline substituted for the triggering character is emitted after the forced
text — not exactly `"\nalert\n"` as the claim reads. -/
theorem forceMessage_exact_output_refuted :
    (ForceMessage (initState false false) t0 "alert" 0 0).out1 ≠
      "\nalert\n".data ∧
    (ForceMessage (initState false false) t0 "alert" 0 0).out1 =
      "\nalert\n\n".data ∧
    (ForceMessage (initState false false) t0 "alert" 0 0).out2 =
      "\nalert\n\n".data := by
  refine ⟨by decide, by decide, by decide⟩

/-- C2 (amended): `ForceMessage(msg)` delivers to each destination exactly
one newline, then — for each destination with timestamping enabled — the
32-column padded timestamp, then the forced text `msg ++ "\n"`, then one
final newline (the substituted triggering character); the force flag is
cleared by the time the call returns (so the busy wait performs zero
iterations), for any destination write results. -/
theorem forceMessage_output (st : TeeState) (t : TimeObs) (msg : String)
    (r1 r2 : Int) :
    (ForceMessage st t msg r1 r2).out1 =
      ['\n'] ++
        (if st.timeStampEnabledStream1 = true then
          (setwLeft32 (GetTimeStamp t)).data else []) ++
        (msg ++ "\n").data ++ ['\n'] ∧
    (ForceMessage st t msg r1 r2).out2 =
      ['\n'] ++
        (if st.timeStampEnabledStream2 = true then
          (setwLeft32 (GetTimeStamp t)).data else []) ++
        (msg ++ "\n").data ++ ['\n'] ∧
    (ForceMessage st t msg r1 r2).st.forceMessage = false ∧
    busyWait (ForceMessage st t msg r1 r2).st = some 0 := by
  have h10 : (10 : Int) ≠ EOF := by decide
  have hch : to_char_type 10 = '\n' := by decide
  refine ⟨?_, ?_, ?_, ?_⟩
  · unfold ForceMessage overflow
    rw [if_neg h10]
    cases h1 : st.timeStampEnabledStream1 <;>
      cases h2 : st.timeStampEnabledStream2 <;> simp [h1, h2, hch]
  · unfold ForceMessage overflow
    rw [if_neg h10]
    cases h1 : st.timeStampEnabledStream1 <;>
      cases h2 : st.timeStampEnabledStream2 <;> simp [h1, h2, hch]
  · exact forceMessage_cleared st t msg r1 r2
  · have h := forceMessage_cleared st t msg r1 r2
    unfold busyWait
    rw [h]
    simp

/-- C6: the line-start flag starts true; after a non-EOF `overflow` it is
true exactly when the character just emitted (the synthesized newline when a
forced message was pending, the input character otherwise) is a newline;
and mid-line, with no forced message pending, the character passes through
to both destinations with no decoration at all. -/
theorem newline_flag_spec (st : TeeState) (t : TimeObs) (c r1 r2 : Int)
    (b1 b2 : Bool) (hc : c ≠ EOF) :
    (initState b1 b2).newline = true ∧
    ((overflow st t c r1 r2).st.newline = true ↔
      to_char_type (if st.forceMessage = true then 10 else c) = '\n') ∧
    (st.newline = false → st.forceMessage = false →
      (overflow st t c r1 r2).out1 = [to_char_type c] ∧
      (overflow st t c r1 r2).out2 = [to_char_type c]) := by
  refine ⟨rfl, ?_, ?_⟩
  · unfold overflow
    rw [if_neg hc]
    cases hF : st.forceMessage <;> simp [hF]
  · intro hN hF
    unfold overflow
    rw [if_neg hc]
    simp [hN, hF]

/-- Witness for C6 at a concrete input (mid-line state, character `'h'`). -/
theorem newline_flag_spec_witness :
    (initState false false).newline = true ∧
    ((overflow { initState false false with newline := false } t0 104 0 0).st.newline
        = true ↔
      to_char_type
        (if { initState false false with newline := false }.forceMessage = true
          then 10 else 104) = '\n') ∧
    ({ initState false false with newline := false }.newline = false →
      { initState false false with newline := false }.forceMessage = false →
      (overflow { initState false false with newline := false } t0 104 0 0).out1 =
        [to_char_type 104] ∧
      (overflow { initState false false with newline := false } t0 104 0 0).out2 =
        [to_char_type 104]) :=
  newline_flag_spec { initState false false with newline := false } t0 104 0 0
    false false (by decide)

/-- C7: `GetLastTimeStamp` returns the stored timestamp string, which is
empty at construction; a non-EOF `overflow` replaces it with the freshly
computed timestamp exactly when it runs at a line start (or with a forced
message pending) and at least one destination has timestamping enabled, and
leaves it unchanged otherwise; `overflow(EOF)` never changes it. -/
theorem getLastTimeStamp_spec (st : TeeState) (t : TimeObs) (c r1 r2 : Int)
    (b1 b2 : Bool) (hc : c ≠ EOF) :
    GetLastTimeStamp (initState b1 b2) = "" ∧
    GetLastTimeStamp (overflow st t c r1 r2).st =
      (if ((st.forceMessage || st.newline) &&
            (st.timeStampEnabledStream1 || st.timeStampEnabledStream2)) = true
        then GetTimeStamp t else GetLastTimeStamp st) ∧
    GetLastTimeStamp (overflow st t EOF r1 r2).st = GetLastTimeStamp st := by
  refine ⟨rfl, ?_, rfl⟩
  unfold overflow GetLastTimeStamp
  rw [if_neg hc]
  cases hF : st.forceMessage <;> simp [hF]

/-- Witness for C7 at a concrete input: the first character of a line with
timestamping enabled on destination 2 stores the computed timestamp. -/
theorem getLastTimeStamp_spec_witness :
    GetLastTimeStamp (initState false true) = "" ∧
    GetLastTimeStamp (overflow (initState false true) t0 104 0 0).st =
      (if (((initState false true).forceMessage || (initState false true).newline) &&
            ((initState false true).timeStampEnabledStream1 ||
              (initState false true).timeStampEnabledStream2)) = true
        then GetTimeStamp t0 else GetLastTimeStamp (initState false true)) ∧
    GetLastTimeStamp (overflow (initState false true) t0 EOF 0 0).st =
      GetLastTimeStamp (initState false true) :=
  getLastTimeStamp_spec (initState false true) t0 104 0 0 false true (by decide)

/-- C4: the 32-column field is padding only — `setwLeft32` pads a short
string on the right to exactly 32 columns and never truncates a long one —
and at a line start the padded timestamp goes precisely to the destinations
whose flag is enabled, the others receiving the bare character; writing
`"hi\n"` with timestamping on destination 1 only gives destination 1 the
padded timestamp followed by `"hi\n"` and destination 2 exactly `"hi\n"`. -/
theorem timestamp_padding_spec (st : TeeState) (t : TimeObs) (c r1 r2 : Int)
    (s : String) (hc : c ≠ EOF) (hN : st.newline = true)
    (hF : st.forceMessage = false) :
    (setwLeft32 s).length = max 32 s.length ∧
    (32 ≤ s.length → setwLeft32 s = s) ∧
    (s.length ≤ 32 → (setwLeft32 s).length = 32) ∧
    (overflow st t c r1 r2).out1 =
      (if st.timeStampEnabledStream1 = true then
        (setwLeft32 (GetTimeStamp t)).data else []) ++ [to_char_type c] ∧
    (overflow st t c r1 r2).out2 =
      (if st.timeStampEnabledStream2 = true then
        (setwLeft32 (GetTimeStamp t)).data else []) ++ [to_char_type c] ∧
    (writeList (initState true false) (strWrites "hi\n" t0)).2.1 =
      (setwLeft32 (GetTimeStamp t0)).data ++ "hi\n".data ∧
    (writeList (initState true false) (strWrites "hi\n" t0)).2.2 =
      "hi\n".data := by
  refine ⟨?_, ?_, ?_, ?_, ?_, by decide, by decide⟩
  · simp [setwLeft32]
    omega
  · intro h
    apply String.ext
    simp [setwLeft32, Nat.sub_eq_zero_of_le h]
  · intro h
    simp [setwLeft32]
    omega
  · unfold overflow
    rw [if_neg hc]
    cases h1 : st.timeStampEnabledStream1 <;>
      cases h2 : st.timeStampEnabledStream2 <;> simp [h1, h2, hN, hF]
  · unfold overflow
    rw [if_neg hc]
    cases h1 : st.timeStampEnabledStream1 <;>
      cases h2 : st.timeStampEnabledStream2 <;> simp [h1, h2, hN, hF]

/-- Witness for C4 at a concrete input. -/
theorem timestamp_padding_spec_witness :
    (setwLeft32 "abc").length = max 32 "abc".length ∧
    (32 ≤ "abc".length → setwLeft32 "abc" = "abc") ∧
    ("abc".length ≤ 32 → (setwLeft32 "abc").length = 32) ∧
    (overflow (initState true false) t0 104 0 0).out1 =
      (if (initState true false).timeStampEnabledStream1 = true then
        (setwLeft32 (GetTimeStamp t0)).data else []) ++ [to_char_type 104] ∧
    (overflow (initState true false) t0 104 0 0).out2 =
      (if (initState true false).timeStampEnabledStream2 = true then
        (setwLeft32 (GetTimeStamp t0)).data else []) ++ [to_char_type 104] ∧
    (writeList (initState true false) (strWrites "hi\n" t0)).2.1 =
      (setwLeft32 (GetTimeStamp t0)).data ++ "hi\n".data ∧
    (writeList (initState true false) (strWrites "hi\n" t0)).2.2 =
      "hi\n".data :=
  timestamp_padding_spec (initState true false) t0 104 0 0 "abc" (by decide)
    (by decide) (by decide)

/-! ## Decimal rendering facts for the timestamp format (C3) -/

/-- A decimal rendering has no leading zero: it starts with `'0'` only when
it is the single digit `"0"`. -/
def noLeadingZero (s : String) : Prop := s.data.head? = some '0' → s = "0"

instance : DecidablePred noLeadingZero := fun s => by
  unfold noLeadingZero; infer_instance

/-- Number of decimal digits of a natural number. -/
def numDigits (n : Nat) : Nat :=
  if _h : n < 10 then 1 else numDigits (n / 10) + 1
decreasing_by omega

lemma numDigits_lt10 (n : Nat) (h : n < 10) : numDigits n = 1 := by
  unfold numDigits
  rw [dif_pos h]

lemma numDigits_ge10 (n : Nat) (h : ¬ n < 10) :
    numDigits n = numDigits (n / 10) + 1 := by
  conv_lhs => rw [numDigits]
  rw [dif_neg h]

/-- With enough fuel, `Nat.toDigitsCore` prepends exactly `numDigits n`
characters. -/
lemma toDigitsCore_length_eq (f : Nat) :
    ∀ (n : Nat) (l : List Char), n < f →
      (Nat.toDigitsCore 10 f n l).length = numDigits n + l.length := by
  induction f with
  | zero => intro n l h; omega
  | succ f ih =>
    intro n l h
    simp only [Nat.toDigitsCore]
    by_cases h10 : n / 10 = 0
    · rw [if_pos h10, numDigits_lt10 n (by omega)]
      simp
      omega
    · rw [if_neg h10, ih (n / 10) _ (by omega),
        numDigits_ge10 n (by omega)]
      simp
      omega

/-- The length of `Nat.repr` is the decimal digit count. -/
lemma repr_length_eq (n : Nat) : (Nat.repr n).length = numDigits n := by
  unfold Nat.repr Nat.toDigits
  have h := toDigitsCore_length_eq (n + 1) n [] (by omega)
  simpa [List.asString] using h

lemma numDigits_four (n : Nat) (h1 : 1000 ≤ n) (h2 : n ≤ 9999) :
    numDigits n = 4 := by
  rw [numDigits_ge10 n (by omega), numDigits_ge10 (n / 10) (by omega),
    numDigits_ge10 (n / 10 / 10) (by omega),
    numDigits_lt10 (n / 10 / 10 / 10) (by omega)]

/-- Small naturals (all the bounded calendar fields) have no leading zero in
their decimal rendering. -/
lemma natRepr_noLeadingZero_le60 : ∀ n : Nat, n ≤ 60 → noLeadingZero (Nat.repr n) := by
  decide

/-- `std::to_string` on a non-negative `int` is the decimal rendering of the
corresponding natural number. -/
lemma intRepr_nonneg (i : Int) (h : 0 ≤ i) : Int.repr i = Nat.repr i.toNat := by
  cases i with
  | ofNat m => rfl
  | negSucc m => exact absurd h (by simp)

/-- The output of `std::to_string(double)`: a non-empty run of digits, a
decimal point, and a non-empty run of fractional digits. -/
def isFloatString (s : String) : Prop :=
  ∃ ip fp : List Char, ip ≠ [] ∧ fp ≠ [] ∧
    (∀ c ∈ ip, c.isDigit = true) ∧ (∀ c ∈ fp, c.isDigit = true) ∧
    s.data = ip ++ '.' :: fp

/-- The string ends in a space and the character before it is not a space. -/
def exactlyOneTrailingSpace (s : String) : Prop :=
  s.data.getLast? = some ' ' ∧
  ∀ c, s.data.dropLast.getLast? = some c → c ≠ ' '

/-- Any string of the shape `p ++ "] "` ends in exactly one space. -/
lemma exactlyOneTrailingSpace_append (p : String) :
    exactlyOneTrailingSpace (p ++ "] ") := by
  have hdata : (p ++ "] ").data = (p.data ++ [']']) ++ [' '] := by
    rw [String.data_append]
    simp
  constructor
  · rw [hdata]
    exact List.getLast?_concat _
  · intro c hc
    rw [hdata, List.dropLast_concat, List.getLast?_concat] at hc
    cases hc
    decide

/-- C3: every timestamp `GetTimeStamp` produces has the form
`[Y-M-D|H:MM:SS|elapsed] `: an opening bracket, the 4-digit year, the month,
day, hour, minute and second each rendered with no leading zeros and
separated as `Y-M-D|H:MM:SS`, the elapsed seconds as a float, a closing
bracket, and exactly one trailing space. -/
theorem getTimeStamp_format (t : TimeObs)
    (hyear : 1000 ≤ t.tm.tm_year + 1900 ∧ t.tm.tm_year + 1900 ≤ 9999)
    (hmon : 0 ≤ t.tm.tm_mon ∧ t.tm.tm_mon ≤ 11)
    (hday : 0 ≤ t.tm.tm_mday ∧ t.tm.tm_mday ≤ 31)
    (hhour : 0 ≤ t.tm.tm_hour ∧ t.tm.tm_hour ≤ 23)
    (hmin : 0 ≤ t.tm.tm_min ∧ t.tm.tm_min ≤ 59)
    (hsec : 0 ≤ t.tm.tm_sec ∧ t.tm.tm_sec ≤ 60)
    (hel : isFloatString t.elapsed) :
    GetTimeStamp t =
      "[" ++ Int.repr (t.tm.tm_year + 1900)
        ++ "-" ++ Int.repr (t.tm.tm_mon + 1)
        ++ "-" ++ Int.repr t.tm.tm_mday
        ++ "|" ++ Int.repr t.tm.tm_hour
        ++ ":" ++ Int.repr t.tm.tm_min
        ++ ":" ++ Int.repr t.tm.tm_sec
        ++ "|" ++ t.elapsed ++ "] " ∧
    (Int.repr (t.tm.tm_year + 1900)).length = 4 ∧
    noLeadingZero (Int.repr (t.tm.tm_mon + 1)) ∧
    noLeadingZero (Int.repr t.tm.tm_mday) ∧
    noLeadingZero (Int.repr t.tm.tm_hour) ∧
    noLeadingZero (Int.repr t.tm.tm_min) ∧
    noLeadingZero (Int.repr t.tm.tm_sec) ∧
    isFloatString t.elapsed ∧
    exactlyOneTrailingSpace (GetTimeStamp t) := by
  have hnlz : ∀ i : Int, 0 ≤ i → i ≤ 60 → noLeadingZero (Int.repr i) := by
    intro i h0 h60
    rw [intRepr_nonneg i h0]
    exact natRepr_noLeadingZero_le60 i.toNat (by omega)
  refine ⟨rfl, ?_, ?_, ?_, ?_, ?_, ?_, hel, ?_⟩
  · rw [intRepr_nonneg _ (by omega), repr_length_eq]
    exact numDigits_four _ (by omega) (by omega)
  · exact hnlz _ (by omega) (by omega)
  · exact hnlz _ (by omega) (by omega)
  · exact hnlz _ (by omega) (by omega)
  · exact hnlz _ (by omega) (by omega)
  · exact hnlz _ (by omega) (by omega)
  · exact exactlyOneTrailingSpace_append _

/-- Witness for C3 at the concrete time observation `t0`. -/
theorem getTimeStamp_format_witness :
    GetTimeStamp t0 =
      "[" ++ Int.repr (t0.tm.tm_year + 1900)
        ++ "-" ++ Int.repr (t0.tm.tm_mon + 1)
        ++ "-" ++ Int.repr t0.tm.tm_mday
        ++ "|" ++ Int.repr t0.tm.tm_hour
        ++ ":" ++ Int.repr t0.tm.tm_min
        ++ ":" ++ Int.repr t0.tm.tm_sec
        ++ "|" ++ t0.elapsed ++ "] " ∧
    (Int.repr (t0.tm.tm_year + 1900)).length = 4 ∧
    noLeadingZero (Int.repr (t0.tm.tm_mon + 1)) ∧
    noLeadingZero (Int.repr t0.tm.tm_mday) ∧
    noLeadingZero (Int.repr t0.tm.tm_hour) ∧
    noLeadingZero (Int.repr t0.tm.tm_min) ∧
    noLeadingZero (Int.repr t0.tm.tm_sec) ∧
    isFloatString t0.elapsed ∧
    exactlyOneTrailingSpace (GetTimeStamp t0) :=
  getTimeStamp_format t0 (by decide) (by decide) (by decide) (by decide)
    (by decide) (by decide)
    ⟨['0'], ['0', '0', '0', '0', '0', '0'], by decide, by decide, by decide,
      by decide, by decide⟩

end DualOStream
